import Mathlib

/-!
Shallow embedding of the imageCDN backend core (validation layer,
optimization engine, request orchestration) from:
  backend/src/middleware/validation.middleware.js
  backend/src/middleware/error.middleware.js
  backend/src/services/image.service.js
  backend/src/routes/image.routes.js
  backend/src/config/app.config.js
Byte buffers are `List Nat`; JavaScript strings used only as opaque keys
are `String`; file names are `List Char` so that the character-level
`split('.')`/`toLowerCase()` logic of the validator can be embedded
faithfully.  External collaborators (the sharp library and the Cloudinary
SDK) are modelled as oracles: records of functions supplied as parameters,
which may fail with the error shapes the call sites inspect.
-/

namespace ImageCDN

/-- JavaScript `a || b` for an optional number (`undefined` and `0` are falsy). -/
def jsOrNat (o : Option Nat) (d : Nat) : Nat :=
  match o with
  | none => d
  | some n => if n = 0 then d else n

/-- JavaScript `a || b` for a string (`''` is falsy). -/
def jsOrStr (s d : String) : String :=
  if s = "" then d else s

/-- JavaScript `a || b` for an optional string (`undefined` and `''` are falsy). -/
def jsOrOptStr (o : Option String) (d : String) : String :=
  match o with
  | none => d
  | some s => jsOrStr s d

/-- Minimal JSON value universe for request bodies and response shapes. -/
inductive JVal where
  | jstr (s : String)
  | jnum (q : ℚ)
  | jbool (b : Bool)
  | jarr (xs : List JVal)

/-- Model of `config` from backend/src/config/app.config.js (upload settings only;
    allowed format extensions are kept as character lists so the
    extension check can be stated character by character). -/
structure AppConfig where
  maxFileSize : Nat
  allowedFormats : List (List Char)
  deriving DecidableEq, Repr

/-- Default `allowedFormats` of app.config.js:
    `['jpg', 'jpeg', 'png', 'gif', 'webp', 'svg']`. -/
def defaultAllowedFormats : List (List Char) :=
  [['j','p','g'], ['j','p','e','g'], ['p','n','g'],
   ['g','i','f'], ['w','e','b','p'], ['s','v','g']]

/-- Default config of app.config.js: 10 MB max upload, default formats. -/
def defaultConfig : AppConfig :=
  { maxFileSize := 10 * 1024 * 1024
    allowedFormats := defaultAllowedFormats }

/-- A file object as delivered by express-fileupload (`req.files.image`). -/
structure UploadedFile where
  name : List Char
  size : Nat
  mimetype : String
  data : List Nat
  deriving DecidableEq, Repr

/-- JavaScript `String.prototype.split` with a one-character separator,
    on the character list of the string.  `splitOnChar sep l` is never
    empty; `"".split(sep)` is `[""]`. -/
def splitOnChar (sep : Char) : List Char → List (List Char)
  | [] => [[]]
  | c :: cs =>
    match splitOnChar sep cs with
    | r :: rs => if c = sep then [] :: r :: rs else (c :: r) :: rs
    | [] => [[]]

/-- Embedding of `file.name.split('.').pop()`: the last field of the split. -/
def jsLastField (name : List Char) : List Char :=
  (splitOnChar '.' name).getLastD []

/-- Embedding of `file.name.split('.').pop().toLowerCase()` from
    validateFileUpload. -/
def fileExtension (name : List Char) : List Char :=
  (jsLastField name).map Char.toLower

/-- The `validMimetypes` array of validateFileUpload (six entries). -/
def validMimetypes : List String :=
  ["image/jpeg", "image/jpg", "image/png", "image/gif", "image/webp",
   "image/svg+xml"]

/-- Outcome of an express validation middleware: either it responds with
    a status and error message, or it calls `next()`. -/
inductive VResult where
  | reject (status : Nat) (errMsg : String)
  | accept
  deriving DecidableEq, Repr

/-- Model of `validateFileUpload` of validation.middleware.js: presence, size,
    extension and mimetype checks, in source order, first failure wins. -/
def validateFileUpload (files : Option UploadedFile) (cfg : AppConfig) :
    VResult :=
  match files with
  | none =>
      .reject 400
        "No image file provided. Please upload a file with the field name \"image\""
  | some file =>
      if file.size > cfg.maxFileSize then
        .reject 400 ("File size exceeds limit. Maximum size: " ++
          toString (cfg.maxFileSize / 1024 / 1024) ++ "MB")
      else if ¬ (cfg.allowedFormats.contains (fileExtension file.name)) then
        .reject 400 ("Invalid file format. Allowed formats: " ++
          String.intercalate ", " (cfg.allowedFormats.map List.asString))
      else if ¬ (validMimetypes.contains file.mimetype) then
        .reject 400 "Invalid file type. Please upload an image file."
      else
        .accept

/-- The multipart request body fields the upload route reads
    (`req.body.folder`, `req.body.publicId`, `req.body.tags`,
    `req.body.optimize`).  Multipart form fields arrive as strings;
    `tags` may be a single string or an array of strings. -/
structure RawBody where
  folder : Option String
  publicId : Option String
  tags : Option (String ⊕ List String)
  optimize : Option String
  deriving DecidableEq, Repr

/-- A string Joi's `boolean()` (convert mode, default case-insensitive
    matching) accepts: `'true'` or `'false'` up to letter case. -/
def joiBoolOk (s : String) : Bool :=
  s.toLower = "true" || s.toLower = "false"

/-- Model of `validateUploadOptions` of validation.middleware.js: the Joi schema
    `{folder: string ≤100, publicId: string ≤100, tags: string |
    string[], optimize: boolean}` applied to the body (all optional).
    Joi 17 strings are non-empty by default, so an empty `folder`,
    `publicId` or tag string fails validation. -/
def validateUploadOptions (body : RawBody) : Bool :=
  body.folder.all (fun s => s != "" && s.length ≤ 100) &&
  body.publicId.all (fun s => s != "" && s.length ≤ 100) &&
  (body.tags).all (fun t => match t with
    | .inl s => s != ""
    | .inr l => l.all (fun s => s != "")) &&
  body.optimize.all joiBoolOk

/-- The `options` object the upload route handler builds and passes to
    `imageService.uploadImage`.  `optimize` is `some b` when the route
    supplied the flag; `uploadImage` may also be called with it absent. -/
structure UploadOptions where
  folder : Option String
  publicId : Option String
  tags : Option (List String)
  optimize : Option Bool
  deriving DecidableEq, Repr

/-- The upload route handler's option construction (image.routes.js):
    `tags: req.body.tags ? (Array.isArray(req.body.tags) ? req.body.tags
    : [req.body.tags]) : []` and `optimize: req.body.optimize !== 'false'`. -/
def mkUploadOptions (body : RawBody) : UploadOptions :=
  { folder := body.folder
    publicId := body.publicId
    tags := some (match body.tags with
      | none => []
      | some (.inl s) => if s = "" then [] else [s]
      | some (.inr l) => l)
    optimize := some (body.optimize != some "false") }

/-- The test `options.optimize !== false` in `uploadImage`: the optimization step
    runs unless the flag is the boolean `false`. -/
def optimizeEnabled (opts : UploadOptions) : Bool :=
  opts.optimize != some false

/-- Intrinsic metadata sharp reports for a decodable buffer
    (`sharp(buffer).metadata()`). -/
structure ImageMeta where
  width : Nat
  height : Nat
  format : String
  deriving DecidableEq, Repr

/-- The sharp pipeline operations `optimizeImage` can chain. -/
inductive SharpOp where
  | resizeInside (w h : Nat)
  | jpegOpt (quality : Nat) (progressive : Bool)
  | pngOpt (quality compressionLevel : Nat)
  | webpOpt (quality : Nat)
  deriving DecidableEq, Repr

/-- The operation chain `optimizeImage` builds from the metadata: resize
    to fit inside 4096×4096 when a dimension exceeds 4096, then the
    format-specific re-encode (jpeg/png/webp), in source order. -/
def planOps (meta : ImageMeta) : List SharpOp :=
  (if meta.width > 4096 ∨ meta.height > 4096 then
    [SharpOp.resizeInside 4096 4096]
  else []) ++
  (if meta.format = "jpeg" ∨ meta.format = "jpg" then
    [SharpOp.jpegOpt 85 true]
  else if meta.format = "png" then
    [SharpOp.pngOpt 85 9]
  else if meta.format = "webp" then
    [SharpOp.webpOpt 85]
  else [])

/-- The sharp library as an oracle: reading metadata may fail (corrupt
    buffer), and rendering the chained pipeline may fail. -/
structure SharpLib where
  metadata : List Nat → Except String ImageMeta
  toBuffer : List Nat → List SharpOp → Except String (List Nat)

/-- Model of `ImageService.optimizeImage`: skip SVG; read metadata; build the
    resize/re-encode chain; render it.  Every failure of the library is
    caught and the original buffer returned (the catch block). -/
def optimizeImage (lib : SharpLib) (buffer : List Nat) (mimetype : String) :
    List Nat :=
  if mimetype = "image/svg+xml" then buffer
  else
    match lib.metadata buffer with
    | .error _ => buffer
    | .ok meta =>
      match lib.toBuffer buffer (planOps meta) with
      | .error _ => buffer
      | .ok out => out

/-- The nested error object Cloudinary SDK failures carry
    (`error.error.message`, `error.error.http_code`). -/
structure CloudError where
  message : String
  http_code : Option Nat
  deriving DecidableEq, Repr

/-- A thrown JavaScript error as the error middleware inspects it:
    `name`, `message`, optional `statusCode`, optional nested Cloudinary
    `error`, optional `stack`. -/
structure JsError where
  name : String
  message : String
  statusCode : Option Nat
  error : Option CloudError
  stack : Option String
  deriving DecidableEq, Repr

/-- Embedding of `new Error(msg)`: name `'Error'`, no status code, no nested error. -/
def plainError (msg : String) : JsError :=
  { name := "Error", message := msg, statusCode := none, error := none
    stack := none }

/-- Model of `errorHandler` of error.middleware.js, returning the HTTP status,
    the `error` message of the JSON body, and the optional `stack` field
    (present only in development mode). -/
def errorHandler (err : JsError) (isDev : Bool) : Nat × String × Option String :=
  let statusCode := jsOrNat err.statusCode 500
  let message := jsOrStr err.message "Internal server error"
  let sm :=
    if err.name = "ValidationError" then (400, err.message)
    else (statusCode, message)
  let sm :=
    if err.name = "UnauthorizedError" then (401, "Unauthorized access")
    else sm
  let sm :=
    if err.name = "MulterError" then (400, "File upload error: " ++ err.message)
    else sm
  let sm :=
    match err.error with
    | some ce =>
      if ce.message ≠ "" then (jsOrNat ce.http_code 500, ce.message)
      else sm
    | none => sm
  (sm.1, sm.2, if isDev then err.stack else none)

/-- Metadata the Cloudinary SDK returns for an uploaded or fetched asset. -/
structure AssetMeta where
  public_id : String
  secure_url : String
  format : String
  width : Nat
  height : Nat
  bytes : Nat
  created_at : String
  resource_type : String
  type : String
  deriving DecidableEq, Repr

/-- The options object handed to `cloudinary.uploader.upload_stream`. -/
structure CloudOpts where
  folder : String
  public_id : Option String
  tags : List String
  resource_type : String
  deriving DecidableEq, Repr

/-- The Cloudinary SDK as an oracle.  `upload` is the upload stream,
    `mkUrl` is `cloudinary.url` (URL synthesis is pure string building
    done inside the SDK, left opaque here). -/
structure Gateway where
  upload : List Nat → CloudOpts → Except JsError AssetMeta
  mkUrl : String → String → String

/-- Model of `ImageService.getThumbnailUrl`: `cloudinary.url(publicId, {…200×200
    fill crop, auto quality/format…, format})`, modelled as the SDK's
    opaque URL builder applied to the id and format. -/
def getThumbnailUrl (gw : Gateway) (publicId : String) (format : String) :
    String :=
  gw.mkUrl publicId format

/-- The `data` object `uploadImage` (and `getImage`, without
    `transformedUrl`) shapes from the provider metadata. -/
structure ShapedImage where
  publicId : String
  url : String
  format : String
  width : Nat
  height : Nat
  bytes : Nat
  createdAt : String
  resourceType : String
  type : String
  thumbnail : String
  deriving DecidableEq, Repr

/-- The response-shaping common to upload and get. -/
def shapeImage (gw : Gateway) (r : AssetMeta) : ShapedImage :=
  { publicId := r.public_id
    url := r.secure_url
    format := r.format
    width := r.width
    height := r.height
    bytes := r.bytes
    createdAt := r.created_at
    resourceType := r.resource_type
    type := r.type
    thumbnail := getThumbnailUrl gw r.public_id r.format }

/-- The buffer `uploadImage` hands to the upload stream: the original
    `file.data`, run through `optimizeImage` unless
    `options.optimize === false`. -/
def uploadBuffer (lib : SharpLib) (file : UploadedFile)
    (opts : UploadOptions) : List Nat :=
  if optimizeEnabled opts then optimizeImage lib file.data file.mimetype
  else file.data

/-- The Cloudinary options `uploadImage` builds:
    `folder: options.folder || 'uploads'`, `tags: options.tags || []`,
    `resource_type: 'auto'`. -/
def mkCloudOpts (opts : UploadOptions) : CloudOpts :=
  { folder := jsOrOptStr opts.folder "uploads"
    public_id := opts.publicId
    tags := (opts.tags).getD []
    resource_type := "auto" }

/-- Model of `ImageService.uploadImage`: reject a missing file, optimize unless
    disabled, upload, shape; any failure is re-thrown wrapped as
    `'Image upload failed: …'`. -/
def uploadImage (lib : SharpLib) (gw : Gateway) (file : Option UploadedFile)
    (opts : UploadOptions) : Except JsError ShapedImage :=
  match file with
  | none => .error (plainError "Image upload failed: No file provided")
  | some f =>
    match gw.upload (uploadBuffer lib f opts) (mkCloudOpts opts) with
    | .error e =>
        .error (plainError ("Image upload failed: " ++ e.message))
    | .ok result => .ok (shapeImage gw result)

/-- A route response: HTTP status plus either the shaped success payload
    or the `{success:false, error, stack?}` error envelope. -/
inductive ApiResult (α : Type) where
  | ok (data : α)
  | fail (error : String) (stack : Option String)
  deriving DecidableEq, Repr

/-- Whether a response is the success envelope (`success: true`). -/
def ApiResult.isSuccess {α : Type} : ApiResult α → Bool
  | .ok _ => true
  | .fail _ _ => false

/-- Wrap `errorHandler` output into a route response. -/
def handleError {α : Type} (err : JsError) (isDev : Bool) :
    Nat × ApiResult α :=
  let r := errorHandler err isDev
  (r.1, .fail r.2.1 r.2.2)

/-- POST /api/images/upload: `validateFileUpload`, then
    `validateUploadOptions`, then the handler (build options, call the
    service, 201 on success); a thrown service error goes through
    `errorHandler`.  The second component is the trace of gateway upload
    calls (buffer and options) the request performed. -/
def uploadRoute (lib : SharpLib) (gw : Gateway) (files : Option UploadedFile)
    (body : RawBody) (cfg : AppConfig) (isDev : Bool) :
    (Nat × ApiResult ShapedImage) × List (List Nat × CloudOpts) :=
  match validateFileUpload files cfg with
  | .reject s m => ((s, .fail m none), [])
  | .accept =>
    if ¬ (validateUploadOptions body) then
      ((400, .fail "upload options failed Joi validation" none), [])
    else
      match files with
      | none => ((400, .fail "unreachable: accept implies a file" none), [])
      | some f =>
        let opts := mkUploadOptions body
        let call := (uploadBuffer lib f opts, mkCloudOpts opts)
        match uploadImage lib gw (some f) opts with
        | .ok d => ((201, .ok d), [call])
        | .error e => (handleError e isDev, [call])

/-- The express-fileupload middleware server.js registers with
    `limits: {fileSize: config.maxFileSize}` and `abortOnLimit: true`:
    a file whose size exceeds the limit aborts the request with HTTP
    status 413 and the plain-text body
    `File size limit has been reached`, before any route or validator
    runs; otherwise the request passes through. -/
def fileUploadLimit (files : Option UploadedFile) (cfg : AppConfig) :
    Option (Nat × String) :=
  match files with
  | some f =>
    if f.size > cfg.maxFileSize then
      some (413, "File size limit has been reached")
    else none
  | none => none

/-- The full upload request pipeline of server.js: the express-fileupload
    size-limit layer, then the /api/images router's upload chain.  The
    second component is the trace of gateway upload calls. -/
def uploadPipeline (lib : SharpLib) (gw : Gateway)
    (files : Option UploadedFile) (body : RawBody) (cfg : AppConfig)
    (isDev : Bool) :
    (Nat × ApiResult ShapedImage) × List (List Nat × CloudOpts) :=
  match fileUploadLimit files cfg with
  | some r => ((r.1, .fail r.2 none), [])
  | none => uploadRoute lib gw files body cfg isDev

/-- Oracle for `cloudinary.api.resource`: per-identifier result, either
    asset metadata or a rejection carrying the SDK error shape. -/
def FetchOracle : Type := String → Except JsError AssetMeta

/-- Model of `ImageService.getImage` (without transformation options: the route
    calls it with none): fetch, shape; a rejection whose
    `error.error?.http_code === 404` is re-thrown as
    `new Error('Image not found')`, any other as
    `new Error('Failed to retrieve image: …')`. -/
def getImage (fetch : FetchOracle) (gw : Gateway) (publicId : String) :
    Except JsError ShapedImage :=
  match fetch publicId with
  | .ok resource => .ok (shapeImage gw resource)
  | .error e =>
    if (match e.error with
        | some ce => ce.http_code == some 404
        | none => false) then
      .error (plainError "Image not found")
    else
      .error (plainError ("Failed to retrieve image: " ++ e.message))

/-- Model of `validatePublicId`: Joi `{publicId: string required}` on the path
    parameter; an express path parameter is always a non-empty string,
    and Joi accepts any string, so the check passes for every id the
    router can produce. -/
def validatePublicId (_publicId : String) : Bool :=
  true

/-- GET /api/images/:publicId: validate the id, call the service,
    200 with the shaped data, or the error through `errorHandler`. -/
def getRoute (fetch : FetchOracle) (gw : Gateway) (publicId : String)
    (isDev : Bool) : Nat × ApiResult ShapedImage :=
  match getImage fetch gw publicId with
  | .ok d => (200, .ok d)
  | .error e => handleError e isDev

/-- The provider-side store for delete: the set of stored identifiers
    (Cloudinary public ids are unique per asset).
    `cloudinary.uploader.destroy` reports `'ok'` and removes the asset
    when it exists, `'not found'` otherwise. -/
def destroy (st : List String) (publicId : String) : String × List String :=
  if st.contains publicId then ("ok", st.erase publicId) else ("not found", st)

/-- The body `deleteImage` responds with on success. -/
structure DeleteResponse where
  success : Bool
  message : String
  publicId : String
  deriving DecidableEq, Repr

/-- Model of `ImageService.deleteImage` over the store model: destroy, then treat
    both `'ok'` and `'not found'` as success with distinguishing
    messages; any other result throws `'Deletion failed'` (wrapped). -/
def deleteImage (st : List String) (publicId : String) :
    Except JsError DeleteResponse × List String :=
  let r := destroy st publicId
  if r.1 = "ok" ∨ r.1 = "not found" then
    (.ok { success := true
           message := if r.1 = "ok" then "Image deleted successfully"
                      else "Image not found"
           publicId := publicId }, r.2)
  else
    (.error (plainError "Image deletion failed: Deletion failed"), r.2)

/-- One of Cloudinary's four usage resources; every field may be absent
    in the provider's reply (`usage.credits?.used || 0`). -/
structure UsageResource where
  used : Option ℚ
  limit : Option ℚ
  used_percent : Option ℚ
  deriving DecidableEq, Repr

/-- Shape of the `cloudinary.api.usage()` reply: each resource object may
    be absent. -/
structure CloudUsage where
  credits : Option UsageResource
  storage : Option UsageResource
  bandwidth : Option UsageResource
  transformations : Option UsageResource
  deriving DecidableEq, Repr

/-- Embedding of `usage.X?.field || 0`: optional chaining then JS `|| 0`. -/
def usageField (r : Option UsageResource) (f : UsageResource → Option ℚ) : ℚ :=
  match r with
  | none => 0
  | some x => match f x with
    | none => 0
    | some q => q

/-- The `data` object of `ImageService.getStats`, with each of `used`,
    `limit`, `percentage` kept as the literal key/value list the source
    builds (so which keys exist is part of the model). -/
structure StatsData where
  used : List (String × ℚ)
  limit : List (String × ℚ)
  percentage : List (String × ℚ)
  deriving DecidableEq, Repr

/-- Model of `ImageService.getStats` response shaping: `used` and `limit` list
    credits, storage, bandwidth and transformations; `percentage` lists
    only credits, storage and bandwidth (mirroring the source object
    literals field for field). -/
def getStatsData (u : CloudUsage) : StatsData :=
  { used :=
      [("credits", usageField u.credits (·.used)),
       ("storage", usageField u.storage (·.used)),
       ("bandwidth", usageField u.bandwidth (·.used)),
       ("transformations", usageField u.transformations (·.used))]
    limit :=
      [("credits", usageField u.credits (·.limit)),
       ("storage", usageField u.storage (·.limit)),
       ("bandwidth", usageField u.bandwidth (·.limit)),
       ("transformations", usageField u.transformations (·.limit))]
    percentage :=
      [("credits", usageField u.credits (·.used_percent)),
       ("storage", usageField u.storage (·.used_percent)),
       ("bandwidth", usageField u.bandwidth (·.used_percent))] }

/-- The four resources the spec names for the usage snapshot. -/
def fourResources : List String :=
  ["storage", "bandwidth", "transformations", "credits"]

/-- A JSON value `Joi.string()` accepts as an array item: a string,
    non-empty by Joi 17 default. -/
def joiStringItem : JVal → Bool
  | .jstr s => s != ""
  | _ => false

/-- Model of `validateBulkDelete`: Joi
    `{publicIds: array().items(string()).min(1).max(100).required()}`
    over the JSON body object (unknown keys rejected, Joi default).
    Item strings are non-empty (Joi 17 string default); the schema has
    no `.unique()`. -/
def validateBulkDelete (body : List (String × JVal)) : Bool :=
  body.all (fun kv => kv.1 = "publicIds") &&
  match body.lookup "publicIds" with
  | some (.jarr xs) => xs.all joiStringItem && decide (1 ≤ xs.length) &&
      decide (xs.length ≤ 100)
  | _ => false

/-- Shape of the `cloudinary.api.delete_resources` reply: per-id outcome
    map and the
    partial-completion flag. -/
structure RawBulkResult where
  deleted : List (String × String)
  partialFlag : Bool
  deriving DecidableEq, Repr

/-- The `data` object `ImageService.bulkDelete` shapes. -/
structure BulkDeleteData where
  deleted : List (String × String)
  deletedCount : Nat
  partialFlag : Bool
  deriving DecidableEq, Repr

/-- Model of `ImageService.bulkDelete` over a delete oracle: guard non-empty
    array (re-checked in the service), call the SDK, shape
    `{deleted, deletedCount: Object.keys(deleted).length, partial}`. -/
def bulkDelete (gw : List String → Except JsError RawBulkResult)
    (publicIds : List String) : Except JsError BulkDeleteData :=
  if publicIds.length = 0 then
    .error (plainError "Bulk deletion failed: Invalid public IDs array")
  else
    match gw publicIds with
    | .error e =>
        .error (plainError ("Bulk deletion failed: " ++ e.message))
    | .ok r =>
        .ok { deleted := r.deleted
              deletedCount := (r.deleted.map Prod.fst).length
              partialFlag := r.partialFlag }

/-- POST /api/images/bulk-delete: `validateBulkDelete` on the JSON body,
    then the handler extracts `publicIds` and calls the service.  The
    second component is the trace of gateway bulk-delete calls. -/
def bulkDeleteRoute (gw : List String → Except JsError RawBulkResult)
    (body : List (String × JVal)) (isDev : Bool) :
    (Nat × ApiResult BulkDeleteData) × List (List String) :=
  if ¬ (validateBulkDelete body) then
    ((400, .fail "bulk delete body failed Joi validation" none), [])
  else
    match body.lookup "publicIds" with
    | some (.jarr xs) =>
      let ids := xs.filterMap (fun v => match v with
        | .jstr s => some s
        | _ => none)
      (match bulkDelete gw ids with
       | .ok d => ((200, .ok d), [ids])
       | .error e => (handleError e isDev, [ids]))
    | _ => ((400, .fail "bulk delete body failed Joi validation" none), [])

/-! ## Helper lemmas -/

/-- The function `getLastD` of a non-empty list ignores the default. -/
lemma getLastD_of_ne_nil {α : Type} {l : List α} (h : l ≠ []) (d₁ d₂ : α) :
    l.getLastD d₁ = l.getLastD d₂ := by
  cases l with
  | nil => exact absurd rfl h
  | cons a t => rw [List.getLastD_cons, List.getLastD_cons]

/-- Splitting a list free of the separator yields the single field. -/
lemma splitOnChar_no_sep {sep : Char} {l : List Char} (h : sep ∉ l) :
    splitOnChar sep l = [l] := by
  induction l with
  | nil => rfl
  | cons c cs ih =>
    have hcs : sep ∉ cs := fun hm => h (List.mem_cons_of_mem _ hm)
    have hc : ¬ c = sep := by
      rintro rfl; exact h (List.mem_cons_self _ _)
    simp [splitOnChar, ih hcs, hc]

/-- Splitting `base ++ '.' ++ ext` with a dot-free `ext`: the split has
    at least two fields and its last field is `ext`. -/
lemma splitOnChar_append_dot {ext : List Char} (hx : '.' ∉ ext)
    (base : List Char) :
    ∃ r rs, splitOnChar '.' (base ++ '.' :: ext) = r :: rs ∧ rs ≠ [] ∧
      (r :: rs).getLastD [] = ext := by
  induction base with
  | nil =>
    refine ⟨[], [ext], ?_, by simp, ?_⟩
    · simp [splitOnChar, splitOnChar_no_sep hx]
    · simp [List.getLastD_cons]
  | cons c cs ih =>
    obtain ⟨r, rs, heq, hne, hlast⟩ := ih
    by_cases hc : c = '.'
    · refine ⟨[], r :: rs, ?_, by simp, ?_⟩
      · simp [splitOnChar, heq, hc]
      · rw [List.getLastD_cons]
        exact hlast
    · refine ⟨c :: r, rs, ?_, hne, ?_⟩
      · simp [splitOnChar, heq, hc]
      · rw [List.getLastD_cons]
        rw [List.getLastD_cons] at hlast
        rw [getLastD_of_ne_nil hne (c :: r) r]
        exact hlast

/-! ## The claims -/

/-- The five MIME strings §4.1 of the spec names as the fixed allow-list
    (from the spec's words, for comparison with `validMimetypes`). -/
def specFiveMimetypes : List String :=
  ["image/jpeg", "image/png", "image/gif", "image/webp", "image/svg+xml"]

/-- A small well-formed upload whose declared media type is the sixth
    accepted MIME string `image/jpg`. -/
def jpgMimeFile : UploadedFile :=
  { name := ['a', '.', 'j', 'p', 'g'], size := 1, mimetype := "image/jpg"
    data := [] }

/-- C4 counterexample: the declared media type `image/jpg` is not one of
    the five MIME strings the claim fixes, yet `validateFileUpload`
    accepts the file — the validator's list has six entries. -/
theorem validateFileUpload_accepts_sixth_mimetype :
    validateFileUpload (some jpgMimeFile) defaultConfig = .accept ∧
    specFiveMimetypes.contains jpgMimeFile.mimetype = false := by
  decide

/-- C4 (amended): for a present file passing the size and extension
    checks, the validator accepts exactly the six MIME strings of its
    `validMimetypes` list (jpeg, jpg, png, gif, webp, svg); any other
    declared media type is rejected with status 400. -/
theorem validateFileUpload_mimetype_iff (file : UploadedFile)
    (cfg : AppConfig) (hsize : file.size ≤ cfg.maxFileSize)
    (hext : cfg.allowedFormats.contains (fileExtension file.name) = true) :
    (validateFileUpload (some file) cfg = .accept ↔
      validMimetypes.contains file.mimetype = true) ∧
    (validMimetypes.contains file.mimetype = false →
      validateFileUpload (some file) cfg =
        .reject 400 "Invalid file type. Please upload an image file.") := by
  have h1 : ¬ (file.size > cfg.maxFileSize) := Nat.not_lt.mpr hsize
  have hext' : fileExtension file.name ∈ cfg.allowedFormats := by
    simpa [List.contains] using hext
  constructor
  · constructor
    · intro hacc
      by_cases hm : file.mimetype ∈ validMimetypes
      · simpa [List.contains] using hm
      · simp [validateFileUpload, h1, hext', hm] at hacc
    · intro hm
      have hm' : file.mimetype ∈ validMimetypes := by
        simpa [List.contains] using hm
      simp [validateFileUpload, h1, hext', hm']
  · intro hm
    have hm' : file.mimetype ∉ validMimetypes := by
      simp [List.contains] at hm
      exact hm
    simp [validateFileUpload, h1, hext', hm']

/-- C4 witness: the hypotheses and conclusion of the amended theorem at
    a concrete png upload. -/
theorem validateFileUpload_mimetype_iff_witness :
    validateFileUpload
      (some ⟨['b', '.', 'p', 'n', 'g'], 7, "image/png", [0]⟩)
      defaultConfig = .accept :=
  ((validateFileUpload_mimetype_iff _ defaultConfig (by decide)
    (by decide)).1).mpr (by decide)

/-- C8 counterexample: a 10 MB + 1 byte upload against the default
    10 MB limit is aborted by the express-fileupload layer of server.js
    with HTTP status 413 — not 400 — before `validateFileUpload` runs,
    and no gateway call occurs. -/
theorem upload_oversize_responds_413 :
    uploadPipeline ⟨fun _ => .error "x", fun _ _ => .error "x"⟩
      ⟨fun _ _ => .error (plainError "x"), fun p _ => p⟩
      (some ⟨['a', '.', 'j', 'p', 'g'], 10485761, "image/jpeg", []⟩)
      ⟨none, none, none, none⟩ defaultConfig false =
      ((413, .fail "File size limit has been reached" none), []) ∧
    (uploadPipeline ⟨fun _ => .error "x", fun _ _ => .error "x"⟩
      ⟨fun _ _ => .error (plainError "x"), fun p _ => p⟩
      (some ⟨['a', '.', 'j', 'p', 'g'], 10485761, "image/jpeg", []⟩)
      ⟨none, none, none, none⟩ defaultConfig false).1.1 ≠ 400 := by
  refine ⟨rfl, by decide⟩

/-- C8 (amended): an upload whose file size exceeds the configured
    maximum is aborted by the express-fileupload limit layer with HTTP
    status 413, and the request performs no gateway upload call (the
    validator's own oversize branch is unreachable behind that layer). -/
theorem upload_oversize_aborted_no_gateway (lib : SharpLib) (gw : Gateway)
    (f : UploadedFile) (body : RawBody) (cfg : AppConfig) (isDev : Bool)
    (h : f.size > cfg.maxFileSize) :
    (uploadPipeline lib gw (some f) body cfg isDev).1.1 = 413 ∧
    (uploadPipeline lib gw (some f) body cfg isDev).2 = [] := by
  simp [uploadPipeline, fileUploadLimit, h]

/-- C8 witness: a 20 MB png against the default 10 MB limit. -/
theorem upload_oversize_aborted_no_gateway_witness :
    (uploadPipeline ⟨fun _ => .error "x", fun _ _ => .error "x"⟩
      ⟨fun _ _ => .error (plainError "x"), fun p _ => p⟩
      (some ⟨['b', '.', 'p', 'n', 'g'], 20971520, "image/png", []⟩)
      ⟨none, none, none, none⟩ defaultConfig true).2 = [] :=
  (upload_oversize_aborted_no_gateway _ _ _ _ _ _ (by decide)).2

/-- C9: in the options the upload route builds, optimization is disabled
    (the flag `uploadImage` tests is the boolean `false`) exactly when
    the form field `optimize` is the string `'false'`; any other value
    and an absent field leave it enabled. -/
theorem route_optimize_flag_iff (body : RawBody) :
    optimizeEnabled (mkUploadOptions body) = false ↔
      body.optimize = some "false" := by
  cases h : body.optimize with
  | none => simp [optimizeEnabled, mkUploadOptions, h]
  | some s =>
    by_cases hs : s = "false" <;>
      simp [optimizeEnabled, mkUploadOptions, h, hs]

/-- C9 witness: the field `'false'` disables optimization; the fields
    `'0'`, `'False'`, `'no'` and an absent field leave it enabled. -/
theorem route_optimize_flag_iff_witness :
    optimizeEnabled (mkUploadOptions ⟨none, none, none, some "false"⟩) =
      false ∧
    optimizeEnabled (mkUploadOptions ⟨none, none, none, some "0"⟩) = true ∧
    optimizeEnabled (mkUploadOptions ⟨none, none, none, some "False"⟩) =
      true ∧
    optimizeEnabled (mkUploadOptions ⟨none, none, none, none⟩) = true := by
  refine ⟨(route_optimize_flag_iff _).mpr rfl, ?_, ?_, ?_⟩ <;> decide

/-- C10: the extension check of `validateFileUpload` is case-insensitive
    over the default allow-list: a file whose last dot-separated name
    field equals an allow-list entry up to letter case passes the format
    check, and the checked extension of `base ++ '.' ++ ext` is `ext`
    lowercased. -/
theorem extension_check_case_insensitive :
    (∀ (name entry : List Char), entry ∈ defaultConfig.allowedFormats →
      fileExtension name = entry.map Char.toLower →
      defaultConfig.allowedFormats.contains (fileExtension name) = true) ∧
    (∀ (base ext : List Char), '.' ∉ ext →
      fileExtension (base ++ '.' :: ext) = ext.map Char.toLower) := by
  constructor
  · intro name entry hmem hlow
    have hself : entry.map Char.toLower = entry := by
      have hall : ∀ e ∈ defaultConfig.allowedFormats,
          e.map Char.toLower = e := by decide
      exact hall entry hmem
    rw [hlow, hself]
    simp [List.contains]
    exact hmem
  · intro base ext hx
    obtain ⟨r, rs, heq, hne, hlast⟩ := splitOnChar_append_dot hx base
    unfold fileExtension jsLastField
    rw [heq, hlast]

/-- C10 witness: `photo.JPG` passes the format check under the default
    configuration, and its checked extension is `jpg`. -/
theorem extension_check_case_insensitive_witness :
    defaultConfig.allowedFormats.contains
      (fileExtension "photo.JPG".toList) = true ∧
    fileExtension (['p','h','o','t','o'] ++ '.' :: ['J','P','G']) =
      ['J','P','G'].map Char.toLower :=
  ⟨extension_check_case_insensitive.1 "photo.JPG".toList ['j','p','g']
    (by decide) (by decide),
   extension_check_case_insensitive.2 ['p','h','o','t','o'] ['J','P','G']
    (by decide)⟩

/-- A fetch oracle where every identifier is unknown: the SDK rejection
    carries `error.http_code = 404`. -/
def fetchNotFound : FetchOracle := fun _ =>
  .error ⟨"Error", "Resource not found", none,
    some ⟨"Resource not found", some 404⟩, none⟩

/-- A gateway stub whose upload path is unused and whose URL builder
    concatenates identifier and format. -/
def gwStub : Gateway :=
  ⟨fun _ _ => .error (plainError "unused"), fun p f => p ++ "." ++ f⟩

/-- C1 counterexample: for an identifier the provider reports not-found
    (http_code 404), the pipeline answers with HTTP status 500 — not
    404 — though the body is `{success:false, error:"Image not found"}`
    (`getImage` re-throws a plain `Error`, losing the status code). -/
theorem get_not_found_responds_500 :
    getRoute fetchNotFound gwStub "missing" false =
      (500, .fail "Image not found" none) ∧
    (getRoute fetchNotFound gwStub "missing" false).1 ≠ 404 := by
  decide

/-- C1 (amended): whenever the fetch oracle rejects with a nested error
    whose `http_code` is 404, the GET pipeline responds with HTTP status
    500 and body `{success:false, error:"Image not found"}`. -/
theorem get_not_found_shape (fetch : FetchOracle) (gw : Gateway)
    (publicId : String) (isDev : Bool) (e : JsError) (ce : CloudError)
    (hf : fetch publicId = .error e) (hce : e.error = some ce)
    (hcode : ce.http_code = some 404) :
    getRoute fetch gw publicId isDev =
      (500, .fail "Image not found" none) := by
  unfold getRoute getImage
  rw [hf]
  simp [hce, hcode, handleError, errorHandler, plainError, jsOrNat,
    jsOrStr]

/-- C1 witness: the amended theorem at the concrete not-found oracle. -/
theorem get_not_found_shape_witness :
    getRoute fetchNotFound gwStub "nope" true =
      (500, .fail "Image not found" none) :=
  get_not_found_shape fetchNotFound gwStub "nope" true
    ⟨"Error", "Resource not found", none,
      some ⟨"Resource not found", some 404⟩, none⟩
    ⟨"Resource not found", some 404⟩ rfl rfl rfl

/-- A sharp oracle that rejects every buffer as undecodable. -/
def corruptSharp : SharpLib :=
  ⟨fun _ => .error "Input buffer contains unsupported image format",
   fun _ _ => .error "unreachable"⟩

/-- A gateway oracle whose upload always succeeds. -/
def okGateway : Gateway :=
  ⟨fun _ _ => .ok ⟨"uploads/a", "https://res.example/a.jpg", "jpg", 10, 10,
     3, "2024-01-01T00:00:00Z", "image", "upload"⟩,
   fun p f => p ++ "." ++ f⟩

/-- C2: `optimizeImage` is total (it returns a buffer, never an error
    value); when every library path fails it returns the original buffer
    unchanged, and an upload whose gateway succeeds succeeds regardless
    of the optimizer's internal failures. -/
theorem optimize_failure_returns_original (lib : SharpLib)
    (buffer : List Nat) (mimetype : String) :
    ((∀ meta, lib.metadata buffer = .ok meta →
        (lib.toBuffer buffer (planOps meta)).isOk = false) →
      optimizeImage lib buffer mimetype = buffer) ∧
    (∀ (gw : Gateway) (f : UploadedFile) (opts : UploadOptions),
      (∀ b o, (gw.upload b o).isOk = true) →
      (uploadImage lib gw (some f) opts).isOk = true) := by
  constructor
  · intro h
    unfold optimizeImage
    by_cases hs : mimetype = "image/svg+xml"
    · simp [hs]
    · simp only [hs, if_false]
      cases hm : lib.metadata buffer with
      | error e => rfl
      | ok meta =>
        have hfail := h meta hm
        cases ht : lib.toBuffer buffer (planOps meta) with
        | error e2 => simp [ht]
        | ok out =>
          rw [ht] at hfail
          simp [Except.isOk, Except.toBool] at hfail
  · intro gw f opts hgw
    unfold uploadImage
    cases hu : gw.upload (uploadBuffer lib f opts) (mkCloudOpts opts) with
    | error e =>
      have := hgw (uploadBuffer lib f opts) (mkCloudOpts opts)
      rw [hu] at this
      simp [Except.isOk, Except.toBool] at this
    | ok r => simp [hu, Except.isOk, Except.toBool]

/-- C2 witness: a corrupt buffer passes through unchanged and the upload
    around it still succeeds. -/
theorem optimize_failure_returns_original_witness :
    optimizeImage corruptSharp [1, 2, 3] "image/jpeg" = [1, 2, 3] ∧
    (uploadImage corruptSharp okGateway
      (some ⟨['a', '.', 'j', 'p', 'g'], 3, "image/jpeg", [1, 2, 3]⟩)
      ⟨none, none, none, none⟩).isOk = true :=
  ⟨(optimize_failure_returns_original corruptSharp [1, 2, 3]
      "image/jpeg").1 (fun meta h => by simp [corruptSharp] at h),
   (optimize_failure_returns_original corruptSharp [1, 2, 3]
      "image/jpeg").2 okGateway _ _ (fun _ _ => rfl)⟩

/-- C6: when the form field `optimize` is the string `'false'` or the
    declared media type is `image/svg+xml`, the buffer `uploadImage`
    hands to the gateway is exactly `file.data`, and the upload route's
    single gateway call carries exactly those bytes. -/
theorem upload_skip_preserves_bytes (lib : SharpLib) (f : UploadedFile)
    (body : RawBody)
    (h : body.optimize = some "false" ∨ f.mimetype = "image/svg+xml") :
    uploadBuffer lib f (mkUploadOptions body) = f.data ∧
    ∀ (gw : Gateway) (cfg : AppConfig) (isDev : Bool),
      validateFileUpload (some f) cfg = .accept →
      validateUploadOptions body = true →
      (uploadRoute lib gw (some f) body cfg isDev).2 =
        [(f.data, mkCloudOpts (mkUploadOptions body))] := by
  have hbuf : uploadBuffer lib f (mkUploadOptions body) = f.data := by
    cases h with
    | inl hfalse =>
      simp [uploadBuffer, optimizeEnabled, mkUploadOptions, hfalse]
    | inr hsvg =>
      unfold uploadBuffer
      split
      · simp [optimizeImage, hsvg]
      · rfl
  refine ⟨hbuf, ?_⟩
  intro gw cfg isDev hv hvo
  simp only [uploadRoute, hv, hvo, not_true, if_false]
  cases hu : uploadImage lib gw (some f) (mkUploadOptions body) <;>
    simp [hu, hbuf]

/-- C6 witness: a small SVG upload reaches the gateway byte-identical. -/
theorem upload_skip_preserves_bytes_witness :
    uploadBuffer corruptSharp ⟨['v', '.', 's', 'v', 'g'], 5,
        "image/svg+xml", [60, 115, 118, 103, 62]⟩
      (mkUploadOptions ⟨none, none, none, none⟩) =
      [60, 115, 118, 103, 62] ∧
    (uploadRoute corruptSharp okGateway
      (some ⟨['v', '.', 's', 'v', 'g'], 5, "image/svg+xml",
        [60, 115, 118, 103, 62]⟩)
      ⟨none, none, none, none⟩ defaultConfig false).2 =
      [([60, 115, 118, 103, 62],
        mkCloudOpts (mkUploadOptions ⟨none, none, none, none⟩))] :=
  ⟨(upload_skip_preserves_bytes corruptSharp _ _ (Or.inr rfl)).1,
   (upload_skip_preserves_bytes corruptSharp _ _ (Or.inr rfl)).2
     okGateway defaultConfig false (by decide) (by decide)⟩

/-- C7: over a duplicate-free store, deleting the same identifier twice
    yields a success body both times: the first call's message reflects
    whether the asset existed, the second call always reports
    `'Image not found'` — still with `success: true`. -/
theorem delete_idempotent_success (st : List String) (publicId : String)
    (h : st.Nodup) :
    (deleteImage st publicId).1 = .ok ⟨true,
      (if st.contains publicId then "Image deleted successfully"
       else "Image not found"), publicId⟩ ∧
    (deleteImage (deleteImage st publicId).2 publicId).1 =
      .ok ⟨true, "Image not found", publicId⟩ := by
  by_cases hmem : publicId ∈ st
  · have hnm : publicId ∉ st.erase publicId := fun hme =>
      ((List.Nodup.mem_erase_iff h).mp hme).1 rfl
    constructor
    · simp [deleteImage, destroy, hmem]
    · simp [deleteImage, destroy, hmem, hnm]
  · constructor
    · simp [deleteImage, destroy, hmem]
    · simp [deleteImage, destroy, hmem]

/-- C7 witness: the store `["a"]` — delete `"a"` twice. -/
theorem delete_idempotent_success_witness :
    (deleteImage ["a"] "a").1 = .ok ⟨true,
      (if (["a"] : List String).contains "a" then
        "Image deleted successfully" else "Image not found"), "a"⟩ ∧
    (deleteImage (deleteImage ["a"] "a").2 "a").1 =
      .ok ⟨true, "Image not found", "a"⟩ :=
  delete_idempotent_success ["a"] "a" (by decide)

/-- The provider's usage reply with every resource object absent. -/
def emptyUsage : CloudUsage := ⟨none, none, none, none⟩

/-- C3 counterexample: `transformations` is one of the four named
    resources, but the `percentage` object of the stats data has no
    `transformations` key (the source builds it with only credits,
    storage and bandwidth). -/
theorem stats_missing_transformations_percentage :
    "transformations" ∈ fourResources ∧
    ((getStatsData emptyUsage).percentage.lookup "transformations") =
      none := by
  decide

/-- C3 (amended): every stats response carries `used` and `limit` values
    for all four named resources, but `percentage` values only for
    storage, bandwidth and credits; the `transformations` percentage key
    is absent. -/
theorem stats_shape (u : CloudUsage) :
    (∀ r ∈ fourResources,
      ((getStatsData u).used.lookup r).isSome = true ∧
      ((getStatsData u).limit.lookup r).isSome = true) ∧
    (∀ r ∈ ["storage", "bandwidth", "credits"],
      ((getStatsData u).percentage.lookup r).isSome = true) ∧
    ((getStatsData u).percentage.lookup "transformations") = none := by
  refine ⟨?_, ?_, rfl⟩
  · intro r hr
    fin_cases hr <;> exact ⟨rfl, rfl⟩
  · intro r hr
    fin_cases hr <;> exact rfl

/-- C3 witness: the amended shape at the all-absent usage reply. -/
theorem stats_shape_witness :
    ((getStatsData emptyUsage).used.lookup "transformations").isSome =
      true ∧
    ((getStatsData emptyUsage).percentage.lookup "credits").isSome =
      true :=
  ⟨((stats_shape emptyUsage).1 "transformations" (by decide)).1,
   (stats_shape emptyUsage).2.1 "credits" (by decide)⟩

/-- A bulk-delete oracle marking every requested id deleted. -/
def bulkGwOk : List String → Except JsError RawBulkResult := fun ids =>
  .ok ⟨ids.map (fun i => (i, "deleted")), false⟩

/-- C5 counterexample: a `publicIds` array with a duplicate passes
    `validateBulkDelete` (the Joi schema has no uniqueness rule); the
    route answers 200 and performs the gateway call. -/
theorem bulk_delete_accepts_duplicates :
    validateBulkDelete [("publicIds", .jarr [.jstr "a", .jstr "a"])] =
      true ∧
    (bulkDeleteRoute bulkGwOk
      [("publicIds", .jarr [.jstr "a", .jstr "a"])] false).1.1 = 200 ∧
    (bulkDeleteRoute bulkGwOk
      [("publicIds", .jarr [.jstr "a", .jstr "a"])] false).2 =
      [["a", "a"]] ∧
    ¬ (["a", "a"] : List String).Nodup := by
  refine ⟨rfl, rfl, rfl, by decide⟩

/-- C5 (amended): a bulk-delete body whose `publicIds` is an array of
    strings is accepted (and the gateway called once with those ids)
    exactly when the array holds 1 to 100 non-empty entries; an empty
    array, an over-long array, or an array containing an empty string is
    rejected with 400 and no gateway call — uniqueness is not checked. -/
theorem bulk_delete_validation
    (gw : List String → Except JsError RawBulkResult) (ids : List String)
    (isDev : Bool) :
    ("" ∉ ids → 1 ≤ ids.length → ids.length ≤ 100 →
      (bulkDeleteRoute gw [("publicIds", .jarr (ids.map .jstr))]
        isDev).2 = [ids]) ∧
    (ids.length = 0 ∨ 100 < ids.length ∨ "" ∈ ids →
      (bulkDeleteRoute gw [("publicIds", .jarr (ids.map .jstr))]
        isDev).1.1 = 400 ∧
      (bulkDeleteRoute gw [("publicIds", .jarr (ids.map .jstr))]
        isDev).2 = []) := by
  have hfm : (ids.map JVal.jstr).filterMap (fun v => match v with
      | .jstr s => some s
      | _ => none) = ids := by
    rw [List.filterMap_map]
    have hcomp : ((fun v => match v with
        | JVal.jstr s => some s
        | _ => none) ∘ JVal.jstr) = some := rfl
    rw [hcomp, List.filterMap_some]
  constructor
  · intro hne h1 h2
    have hall : (ids.map JVal.jstr).all joiStringItem = true := by
      rw [List.all_eq_true]
      intro x hx
      rcases List.mem_map.mp hx with ⟨s, hs, rfl⟩
      have hs' : s ≠ "" := fun he => hne (he ▸ hs)
      simp [joiStringItem, hs']
    have hval : validateBulkDelete
        [("publicIds", .jarr (ids.map .jstr))] = true := by
      simp [validateBulkDelete, hall, List.length_map, h1, h2]
    simp only [bulkDeleteRoute, hval, not_true, if_false]
    have hne0 : ¬ ids.length = 0 := by omega
    simp [bulkDelete, hfm, hne0]
    cases hg : gw ids <;> simp [hg]
  · intro h
    have hval : validateBulkDelete
        [("publicIds", .jarr (ids.map .jstr))] = false := by
      rcases h with h | h | h
      · simp [validateBulkDelete, List.length_map, h]
      · have hnle : ¬ ids.length ≤ 100 := by omega
        simp [validateBulkDelete, List.length_map, hnle]
      · have hallf : (ids.map JVal.jstr).all joiStringItem = false := by
          cases hb : (ids.map JVal.jstr).all joiStringItem
          · rfl
          · exfalso
            have hcontra := List.all_eq_true.mp hb (.jstr "")
              (List.mem_map.mpr ⟨"", h, rfl⟩)
            simp [joiStringItem] at hcontra
        simp [validateBulkDelete, hallf]
    simp [bulkDeleteRoute, hval]

/-- C5 witness: two distinct non-empty ids pass and reach the gateway. -/
theorem bulk_delete_validation_witness :
    (bulkDeleteRoute bulkGwOk
      [("publicIds", .jarr (["a", "b"].map .jstr))] false).2 =
      [["a", "b"]] :=
  (bulk_delete_validation bulkGwOk ["a", "b"] false).1 (by decide)
    (by decide) (by decide)

end ImageCDN
